import Mathlib

/-
Shallow embedding of the sdefer library (src/sdefer.py): a synchronous
stand-in for a deferred result.  The repository defines two Python classes:

  * SynchronousDeferred: holds a mutable result; addCallback, addErrback,
    addCallbacks and addBoth run a handler immediately against the current
    result via the shared primitive _callCallback, which replaces the result
    with the handler return value, or with SynchronousFailure() capturing the
    raised exception when the handler raises.  synchronize returns the result,
    or re-raises it when it is a SynchronousFailure.

  * SynchronousFailure(Exception): wraps an exception value plus the captured
    traceback; when constructed with value=None it reads sys.exc_info().
    check scans exception types with isinstance, trap re-raises self on no
    match, raiseException re-raises the wrapped value with the stored
    traceback.

Python values are modelled by the inductive type PyVal; the class hierarchy
relevant to isinstance is the table PyClass.ancestors, which follows the
Python method-resolution order of the classes that occur in the repository
(ZeroDivisionError < ArithmeticError < Exception < BaseException, and
SynchronousFailure < Exception because the source declares
class SynchronousFailure(Exception)).  Raising is modelled by explicit
outcome types (HResult for handlers, RaiseOutcome and SyncResult for the two
sanctioned escape points); a traceback is a list of frame identifiers whose
last element is the innermost (deepest) frame.
-/

/-- Exception classes that occur in the repository and its tests, plus the
class SynchronousFailure itself, which the source derives from Exception. -/
inductive PyClass where
  | BaseException
  | Exception
  | ArithmeticError
  | ZeroDivisionError
  | RuntimeError
  | ValueError
  | SynchronousFailure
deriving DecidableEq

/-- Linearised ancestor chain of each class, the class itself first, as
Python method resolution order gives it.  isinstance(v, k) holds exactly
when k occurs in the chain of the class of v. -/
def PyClass.ancestors : PyClass → List PyClass
  | .BaseException => [.BaseException]
  | .Exception => [.Exception, .BaseException]
  | .ArithmeticError => [.ArithmeticError, .Exception, .BaseException]
  | .ZeroDivisionError => [.ZeroDivisionError, .ArithmeticError, .Exception, .BaseException]
  | .RuntimeError => [.RuntimeError, .Exception, .BaseException]
  | .ValueError => [.ValueError, .Exception, .BaseException]
  | .SynchronousFailure => [.SynchronousFailure, .Exception, .BaseException]

/-- Boolean membership in a list of classes. -/
def PyClass.listHas (k : PyClass) : List PyClass → Bool
  | [] => false
  | c :: rest => if c = k then true else PyClass.listHas k rest

/-- The classes a plain exception instance can have.  SynchronousFailure is
excluded here because every instance of that class carries the value and tb
fields and is represented by the dedicated failure constructor of PyVal. -/
inductive ExcClass where
  | BaseException
  | Exception
  | ArithmeticError
  | ZeroDivisionError
  | RuntimeError
  | ValueError
deriving DecidableEq

/-- View a plain exception class as a PyClass. -/
def ExcClass.toPyClass : ExcClass → PyClass
  | .BaseException => .BaseException
  | .Exception => .Exception
  | .ArithmeticError => .ArithmeticError
  | .ZeroDivisionError => .ZeroDivisionError
  | .RuntimeError => .RuntimeError
  | .ValueError => .ValueError

/-- The universe of Python values the repository manipulates: None, plain
data (integers, strings), exception instances carrying their class and a
payload distinguishing distinct instances, and SynchronousFailure instances
carrying the wrapped value and the optional captured traceback.  A failure
may wrap any value, including another failure. -/
inductive PyVal where
  | none
  | int (n : Int)
  | str (s : String)
  | exc (cls : ExcClass) (payload : Nat)
  | failure (value : PyVal) (tb : Option (List Nat))
deriving DecidableEq

/-- The Python class of a value, when it is an instance of one of the
modelled exception classes.  A SynchronousFailure instance has class
PyClass.SynchronousFailure. -/
def PyVal.classOf : PyVal → Option PyClass
  | .exc c _ => some (ExcClass.toPyClass c)
  | .failure _ _ => some .SynchronousFailure
  | _ => Option.none

/-- isinstance(v, k) for the modelled classes: the class of v, when it has
one, must have k among its ancestors. -/
def PyVal.isinstance (v : PyVal) (k : PyClass) : Bool :=
  match PyVal.classOf v with
  | some c => PyClass.listHas k (PyClass.ancestors c)
  | Option.none => false

/-- Ambient exception state, as sys.exc_info() reports it: the exception
currently being handled (PyVal.none when there is none) and its traceback. -/
structure ExcInfo where
  value : PyVal
  tb : Option (List Nat)
deriving DecidableEq

/-- SynchronousFailure.__init__(self, value=None): with a non-None value the
wrapper stores it directly and the traceback stays None; with value None it
captures value and traceback from sys.exc_info().  The result is the
constructed instance as a PyVal. -/
def SynchronousFailure.init (value : PyVal) (ambient : ExcInfo) : PyVal :=
  if value = PyVal.none then PyVal.failure ambient.value ambient.tb
  else PyVal.failure value Option.none

/-- SynchronousFailure.check(self, *exceptionTypes): scan the supplied types
in order and return the first of which self.value is an instance; fall off
the loop (return None) when none matches.  The first argument is self.value. -/
def SynchronousFailure.check (value : PyVal) : List PyClass → Option PyClass
  | [] => Option.none
  | k :: rest => if PyVal.isinstance value k then some k else SynchronousFailure.check value rest

/-- Outcome of SynchronousFailure.trap: either the matched exception type is
returned, or the failure instance itself is raised. -/
inductive TrapResult where
  | matched (k : PyClass)
  | raisedSelf (self : PyVal)
deriving DecidableEq

/-- SynchronousFailure.trap(self, *exceptionTypes): delegate to check; when
check returns None, raise self; otherwise return the matched type.  The
instance is given by its two fields value and tb. -/
def SynchronousFailure.trap (value : PyVal) (tb : Option (List Nat))
    (kinds : List PyClass) : TrapResult :=
  match SynchronousFailure.check value kinds with
  | Option.none => TrapResult.raisedSelf (PyVal.failure value tb)
  | some k => TrapResult.matched k

/-- What a Python 2 three-argument raise statement throws: the class, the
exception value and the traceback to install. -/
structure RaiseOutcome where
  cls : Option PyClass
  value : PyVal
  tb : Option (List Nat)
deriving DecidableEq

/-- SynchronousFailure.raiseException(self): raise type(self.value),
self.value, self.tb.  The instance is given by its two fields. -/
def SynchronousFailure.raiseException (value : PyVal) (tb : Option (List Nat)) : RaiseOutcome :=
  ⟨PyVal.classOf value, value, tb⟩

/-- The deepest (innermost) frame of an optional traceback: the last entry
of the frame list, where the original raise site sits. -/
def deepestFrame (tb : Option (List Nat)) : Option Nat :=
  tb.bind List.getLast?

/-- The deferred container: its single attribute is the current result. -/
structure SynchronousDeferred where
  result : PyVal
deriving DecidableEq

/-- Outcome of invoking a caller-supplied handler: a normal return carrying
the returned value, or a raise carrying the raised value and the traceback
of the raise (its last frame is the raise site inside the handler). -/
inductive HResult where
  | ok (v : PyVal)
  | raised (e : PyVal) (tb : List Nat)
deriving DecidableEq

/-- A handler receives the current result, the extra positional arguments
and the extra keyword arguments, and returns or raises. -/
abbrev Handler := PyVal → List PyVal → List (String × PyVal) → HResult

/-- SynchronousDeferred._callCallback(self, callback, *args, **kwargs):
try self.result = callback(self.result, *args, **kwargs), and a bare except
sets self.result = SynchronousFailure(), which captures the caught exception
and its traceback from the ambient state.  Mutation is modelled by returning
the updated container. -/
def SynchronousDeferred.callCallback (d : SynchronousDeferred) (cb : Handler)
    (args : List PyVal) (kwargs : List (String × PyVal)) : SynchronousDeferred :=
  match cb d.result args kwargs with
  | HResult.ok v => ⟨v⟩
  | HResult.raised e tb => ⟨SynchronousFailure.init PyVal.none ⟨e, some tb⟩⟩

/-- SynchronousDeferred.addCallback: call the callback immediately with the
current result unless the current result is a SynchronousFailure. -/
def SynchronousDeferred.addCallback (d : SynchronousDeferred) (cb : Handler)
    (args : List PyVal) (kwargs : List (String × PyVal)) : SynchronousDeferred :=
  if PyVal.isinstance d.result PyClass.SynchronousFailure then d
  else SynchronousDeferred.callCallback d cb args kwargs

/-- SynchronousDeferred.addErrback: call the errback immediately with the
current result exactly when the current result is a SynchronousFailure. -/
def SynchronousDeferred.addErrback (d : SynchronousDeferred) (eb : Handler)
    (args : List PyVal) (kwargs : List (String × PyVal)) : SynchronousDeferred :=
  if PyVal.isinstance d.result PyClass.SynchronousFailure then
    SynchronousDeferred.callCallback d eb args kwargs
  else d

/-- SynchronousDeferred.addCallbacks: call the errback with its extra
arguments when the current result is a SynchronousFailure, otherwise the
callback with its extra arguments. -/
def SynchronousDeferred.addCallbacks (d : SynchronousDeferred) (cb eb : Handler)
    (callbackArgs errbackArgs : List PyVal)
    (callbackKwargs errbackKwargs : List (String × PyVal)) : SynchronousDeferred :=
  if PyVal.isinstance d.result PyClass.SynchronousFailure then
    SynchronousDeferred.callCallback d eb errbackArgs errbackKwargs
  else
    SynchronousDeferred.callCallback d cb callbackArgs callbackKwargs

/-- SynchronousDeferred.addBoth: call the callback with the current value,
no matter what the current value is. -/
def SynchronousDeferred.addBoth (d : SynchronousDeferred) (cb : Handler)
    (args : List PyVal) (kwargs : List (String × PyVal)) : SynchronousDeferred :=
  SynchronousDeferred.callCallback d cb args kwargs

/-- Outcome of synchronize: the value is returned, or an exception is
raised. -/
inductive SyncResult where
  | ok (v : PyVal)
  | raised (r : RaiseOutcome)
deriving DecidableEq

/-- SynchronousDeferred.synchronize(self): when self.result is a
SynchronousFailure (the isinstance test holds exactly on the failure
constructor, see isinstance_SynchronousFailure_spec), control enters
raiseException and the raise escapes; otherwise self.result is returned. -/
def SynchronousDeferred.synchronize (d : SynchronousDeferred) : SyncResult :=
  match d.result with
  | PyVal.failure v tb => SyncResult.raised (SynchronousFailure.raiseException v tb)
  | r => SyncResult.ok r

/-- State-passing form of synchronize: the method body assigns nothing to
self.result, so the container after the call is the container before it,
whether the call returns or raises. -/
def SynchronousDeferred.synchronizeS (d : SynchronousDeferred) :
    SyncResult × SynchronousDeferred :=
  (SynchronousDeferred.synchronize d, d)

/-- Record of one handler invocation: the first argument it received and the
extra positional and keyword arguments. -/
structure CallRec where
  payload : PyVal
  args : List PyVal
  kwargs : List (String × PyVal)
deriving DecidableEq

/-- Instrumented _callCallback: same state as callCallback, plus the log of
the single invocation it performs. -/
def SynchronousDeferred.callCallbackT (d : SynchronousDeferred) (cb : Handler)
    (args : List PyVal) (kwargs : List (String × PyVal)) :
    SynchronousDeferred × List CallRec :=
  (SynchronousDeferred.callCallback d cb args kwargs, [⟨d.result, args, kwargs⟩])

/-- Instrumented addCallback: logs the invocations of the callback. -/
def SynchronousDeferred.addCallbackT (d : SynchronousDeferred) (cb : Handler)
    (args : List PyVal) (kwargs : List (String × PyVal)) :
    SynchronousDeferred × List CallRec :=
  if PyVal.isinstance d.result PyClass.SynchronousFailure then (d, [])
  else SynchronousDeferred.callCallbackT d cb args kwargs

/-- Instrumented addErrback: logs the invocations of the errback. -/
def SynchronousDeferred.addErrbackT (d : SynchronousDeferred) (eb : Handler)
    (args : List PyVal) (kwargs : List (String × PyVal)) :
    SynchronousDeferred × List CallRec :=
  if PyVal.isinstance d.result PyClass.SynchronousFailure then
    SynchronousDeferred.callCallbackT d eb args kwargs
  else (d, [])

/-- Instrumented addCallbacks: the first log lists the invocations of the
callback, the second the invocations of the errback. -/
def SynchronousDeferred.addCallbacksT (d : SynchronousDeferred) (cb eb : Handler)
    (callbackArgs errbackArgs : List PyVal)
    (callbackKwargs errbackKwargs : List (String × PyVal)) :
    SynchronousDeferred × List CallRec × List CallRec :=
  if PyVal.isinstance d.result PyClass.SynchronousFailure then
    (SynchronousDeferred.callCallback d eb errbackArgs errbackKwargs,
     [], [⟨d.result, errbackArgs, errbackKwargs⟩])
  else
    (SynchronousDeferred.callCallback d cb callbackArgs callbackKwargs,
     [⟨d.result, callbackArgs, callbackKwargs⟩], [])

/-- A handler that returns its first argument unchanged. -/
def retOk : Handler := fun v _ _ => HResult.ok v

/-- A handler that raises a RuntimeError instance from frame 5. -/
def raiseRT : Handler := fun _ _ _ => HResult.raised (PyVal.exc ExcClass.RuntimeError 0) [5]

/-- A handler that raises a SynchronousFailure wrapping an instance of the
base Exception class. -/
def raiseNestedExc : Handler := fun _ _ _ =>
  HResult.raised (PyVal.failure (PyVal.exc ExcClass.Exception 0) Option.none) [3]

/-- A handler that raises a SynchronousFailure wrapping a RuntimeError. -/
def raiseNestedRT : Handler := fun _ _ _ =>
  HResult.raised (PyVal.failure (PyVal.exc ExcClass.RuntimeError 0) Option.none) [3]

theorem isinstance_SynchronousFailure_spec (v : PyVal) :
    PyVal.isinstance v PyClass.SynchronousFailure = true ↔
      ∃ ev tb, v = PyVal.failure ev tb := by
  cases v with
  | failure ev tb => simp [PyVal.isinstance, PyVal.classOf, PyClass.ancestors, PyClass.listHas]
  | exc c n =>
      cases c <;>
        simp [PyVal.isinstance, PyVal.classOf, ExcClass.toPyClass, PyClass.ancestors,
          PyClass.listHas]
  | none => simp [PyVal.isinstance, PyVal.classOf]
  | int n => simp [PyVal.isinstance, PyVal.classOf]
  | str s => simp [PyVal.isinstance, PyVal.classOf]

theorem isinstance_failure_true (ev : PyVal) (tb : Option (List Nat)) :
    PyVal.isinstance (PyVal.failure ev tb) PyClass.SynchronousFailure = true := rfl

theorem callCallback_raised (d : SynchronousDeferred) (cb : Handler)
    (a : List PyVal) (k : List (String × PyVal)) (e : PyVal) (tb : List Nat)
    (h : cb d.result a k = HResult.raised e tb) :
    SynchronousDeferred.callCallback d cb a k = ⟨PyVal.failure e (some tb)⟩ := by
  simp [SynchronousDeferred.callCallback, h, SynchronousFailure.init]

theorem callCallback_ok (d : SynchronousDeferred) (cb : Handler)
    (a : List PyVal) (k : List (String × PyVal)) (v : PyVal)
    (h : cb d.result a k = HResult.ok v) :
    SynchronousDeferred.callCallback d cb a k = ⟨v⟩ := by
  simp [SynchronousDeferred.callCallback, h]

theorem addCallbackT_fst (d : SynchronousDeferred) (cb : Handler)
    (a : List PyVal) (k : List (String × PyVal)) :
    (SynchronousDeferred.addCallbackT d cb a k).1 =
      SynchronousDeferred.addCallback d cb a k := by
  cases hb : PyVal.isinstance d.result PyClass.SynchronousFailure <;>
    simp [SynchronousDeferred.addCallbackT, SynchronousDeferred.addCallback,
      SynchronousDeferred.callCallbackT, hb]

theorem addErrbackT_fst (d : SynchronousDeferred) (eb : Handler)
    (a : List PyVal) (k : List (String × PyVal)) :
    (SynchronousDeferred.addErrbackT d eb a k).1 =
      SynchronousDeferred.addErrback d eb a k := by
  cases hb : PyVal.isinstance d.result PyClass.SynchronousFailure <;>
    simp [SynchronousDeferred.addErrbackT, SynchronousDeferred.addErrback,
      SynchronousDeferred.callCallbackT, hb]

theorem addCallbacksT_fst (d : SynchronousDeferred) (cb eb : Handler)
    (ca ea : List PyVal) (ck ek : List (String × PyVal)) :
    (SynchronousDeferred.addCallbacksT d cb eb ca ea ck ek).1 =
      SynchronousDeferred.addCallbacks d cb eb ca ea ck ek := by
  cases hb : PyVal.isinstance d.result PyClass.SynchronousFailure <;>
    simp [SynchronousDeferred.addCallbacksT, SynchronousDeferred.addCallbacks, hb]

theorem synchronize_ok_of_not_failure (v : PyVal)
    (h : PyVal.isinstance v PyClass.SynchronousFailure = false) :
    SynchronousDeferred.synchronize ⟨v⟩ = SyncResult.ok v := by
  cases v with
  | failure ev tb => rw [isinstance_failure_true] at h; exact Bool.noConfusion h
  | none => rfl
  | int n => rfl
  | str s => rfl
  | exc c n => rfl

/-- C1: for every container state and every handler passed to any of the
four registration operations, if the invoked handler raises, the exception
never escapes the registration call: the call returns normally (the
operations are total functions of the model) and the current value of the
container becomes a new Failure wrapper capturing the raised error and its
traceback. -/
theorem claim_C1_raising_handler_captured (v e : PyVal) (tb : List Nat)
    (h g : Handler) (a ga : List PyVal) (k gk : List (String × PyVal))
    (hr : h v a k = HResult.raised e tb) :
    SynchronousDeferred.addBoth ⟨v⟩ h a k = ⟨PyVal.failure e (some tb)⟩ ∧
    (PyVal.isinstance v PyClass.SynchronousFailure = false →
      SynchronousDeferred.addCallback ⟨v⟩ h a k = ⟨PyVal.failure e (some tb)⟩ ∧
      SynchronousDeferred.addCallbacks ⟨v⟩ h g a ga k gk =
        ⟨PyVal.failure e (some tb)⟩) ∧
    (PyVal.isinstance v PyClass.SynchronousFailure = true →
      SynchronousDeferred.addErrback ⟨v⟩ h a k = ⟨PyVal.failure e (some tb)⟩ ∧
      SynchronousDeferred.addCallbacks ⟨v⟩ g h ga a gk k =
        ⟨PyVal.failure e (some tb)⟩) := by
  have hc := callCallback_raised ⟨v⟩ h a k e tb hr
  refine ⟨hc, fun hf => ⟨?_, ?_⟩, fun ht => ⟨?_, ?_⟩⟩
  · simpa [SynchronousDeferred.addCallback, hf] using hc
  · simpa [SynchronousDeferred.addCallbacks, hf] using hc
  · simpa [SynchronousDeferred.addErrback, ht] using hc
  · simpa [SynchronousDeferred.addCallbacks, ht] using hc

theorem claim_C1_witness :
    raiseRT (PyVal.int 1) [] [] =
      HResult.raised (PyVal.exc ExcClass.RuntimeError 0) [5] ∧
    SynchronousDeferred.addBoth ⟨PyVal.int 1⟩ raiseRT [] [] =
      ⟨PyVal.failure (PyVal.exc ExcClass.RuntimeError 0) (some [5])⟩ :=
  ⟨rfl,
   (claim_C1_raising_handler_captured (PyVal.int 1)
     (PyVal.exc ExcClass.RuntimeError 0) [5] raiseRT retOk [] [] [] [] rfl).1⟩

/-- C2: for every value v that is not a SynchronousFailure, a deferred
constructed from v synchronizes to v itself; for every SynchronousFailure,
synchronize raises the wrapped error (the three-argument raise carries the
class of the wrapped value, the wrapped value itself and the stored
traceback). -/
theorem claim_C2_synchronize_returns_or_raises (v ev : PyVal)
    (tb : Option (List Nat)) :
    (PyVal.isinstance v PyClass.SynchronousFailure = false →
      SynchronousDeferred.synchronize ⟨v⟩ = SyncResult.ok v) ∧
    SynchronousDeferred.synchronize ⟨PyVal.failure ev tb⟩ =
      SyncResult.raised ⟨PyVal.classOf ev, ev, tb⟩ :=
  ⟨fun h => synchronize_ok_of_not_failure v h, rfl⟩

theorem claim_C2_witness :
    PyVal.isinstance (PyVal.int 5) PyClass.SynchronousFailure = false ∧
    SynchronousDeferred.synchronize ⟨PyVal.int 5⟩ = SyncResult.ok (PyVal.int 5) :=
  ⟨rfl,
   (claim_C2_synchronize_returns_or_raises (PyVal.int 5) PyVal.none Option.none).1 rfl⟩

/-- C3: on a success container addCallback invokes its callback exactly once
with the current success value (the trace holds one record whose payload is
that value), while addErrback leaves the container unchanged and invokes
nothing; on a failure container addErrback invokes its errback exactly once
with the SynchronousFailure instance itself as first argument, while
addCallback leaves the container unchanged and invokes nothing. -/
theorem claim_C3_callback_errback_invocation (v ev : PyVal)
    (tb : Option (List Nat)) (cb eb : Handler)
    (a : List PyVal) (k : List (String × PyVal)) :
    (PyVal.isinstance v PyClass.SynchronousFailure = false →
      SynchronousDeferred.addCallbackT ⟨v⟩ cb a k =
        (SynchronousDeferred.callCallback ⟨v⟩ cb a k, [⟨v, a, k⟩]) ∧
      SynchronousDeferred.addErrbackT ⟨v⟩ eb a k = (⟨v⟩, [])) ∧
    (SynchronousDeferred.addErrbackT ⟨PyVal.failure ev tb⟩ eb a k =
      (SynchronousDeferred.callCallback ⟨PyVal.failure ev tb⟩ eb a k,
       [⟨PyVal.failure ev tb, a, k⟩]) ∧
     SynchronousDeferred.addCallbackT ⟨PyVal.failure ev tb⟩ cb a k =
      (⟨PyVal.failure ev tb⟩, [])) := by
  refine ⟨fun hf => ⟨?_, ?_⟩, ?_, ?_⟩
  · simp [SynchronousDeferred.addCallbackT, SynchronousDeferred.callCallbackT, hf]
  · simp [SynchronousDeferred.addErrbackT, hf]
  · simp [SynchronousDeferred.addErrbackT, SynchronousDeferred.callCallbackT,
      isinstance_failure_true]
  · simp [SynchronousDeferred.addCallbackT, isinstance_failure_true]

theorem claim_C3_witness :
    PyVal.isinstance (PyVal.int 2) PyClass.SynchronousFailure = false ∧
    (SynchronousDeferred.addCallbackT ⟨PyVal.int 2⟩ retOk [] [] =
      (SynchronousDeferred.callCallback ⟨PyVal.int 2⟩ retOk [] [],
       [⟨PyVal.int 2, [], []⟩]) ∧
     SynchronousDeferred.addErrbackT ⟨PyVal.int 2⟩ retOk [] [] =
      (⟨PyVal.int 2⟩, [])) :=
  ⟨rfl,
   (claim_C3_callback_errback_invocation (PyVal.int 2) PyVal.none Option.none
     retOk retOk [] []).1 rfl⟩

/-- C4: addCallbacks invokes exactly one of its two handlers, the errback
when the current value is a SynchronousFailure and the callback otherwise,
and never the other (the trace of the other handler is empty for every pair
of handlers, raising ones included); when the chosen handler raises, the
result is a new Failure capturing the raised error, not a fallback to the
second handler. -/
theorem claim_C4_addCallbacks_exactly_one (v ev : PyVal)
    (tb : Option (List Nat)) (cb eb : Handler) (ca ea : List PyVal)
    (ck ek : List (String × PyVal)) (e : PyVal) (rtb : List Nat) :
    (PyVal.isinstance v PyClass.SynchronousFailure = false →
      SynchronousDeferred.addCallbacksT ⟨v⟩ cb eb ca ea ck ek =
        (SynchronousDeferred.callCallback ⟨v⟩ cb ca ck, [⟨v, ca, ck⟩], []) ∧
      (cb v ca ck = HResult.raised e rtb →
        SynchronousDeferred.addCallbacks ⟨v⟩ cb eb ca ea ck ek =
          ⟨PyVal.failure e (some rtb)⟩)) ∧
    (SynchronousDeferred.addCallbacksT ⟨PyVal.failure ev tb⟩ cb eb ca ea ck ek =
      (SynchronousDeferred.callCallback ⟨PyVal.failure ev tb⟩ eb ea ek,
       [], [⟨PyVal.failure ev tb, ea, ek⟩]) ∧
     (eb (PyVal.failure ev tb) ea ek = HResult.raised e rtb →
       SynchronousDeferred.addCallbacks ⟨PyVal.failure ev tb⟩ cb eb ca ea ck ek =
         ⟨PyVal.failure e (some rtb)⟩)) := by
  refine ⟨fun hf => ⟨?_, fun hr => ?_⟩, ?_, fun hr => ?_⟩
  · simp [SynchronousDeferred.addCallbacksT, hf]
  · have hc := callCallback_raised ⟨v⟩ cb ca ck e rtb hr
    simpa [SynchronousDeferred.addCallbacks, hf] using hc
  · simp [SynchronousDeferred.addCallbacksT, isinstance_failure_true]
  · have hc := callCallback_raised ⟨PyVal.failure ev tb⟩ eb ea ek e rtb hr
    simpa [SynchronousDeferred.addCallbacks, isinstance_failure_true] using hc

theorem claim_C4_witness :
    PyVal.isinstance (PyVal.int 3) PyClass.SynchronousFailure = false ∧
    raiseRT (PyVal.int 3) [] [] =
      HResult.raised (PyVal.exc ExcClass.RuntimeError 0) [5] ∧
    SynchronousDeferred.addCallbacksT ⟨PyVal.int 3⟩ raiseRT retOk [] [] [] [] =
      (SynchronousDeferred.callCallback ⟨PyVal.int 3⟩ raiseRT [] [],
       [⟨PyVal.int 3, [], []⟩], []) ∧
    SynchronousDeferred.addCallbacks ⟨PyVal.int 3⟩ raiseRT retOk [] [] [] [] =
      ⟨PyVal.failure (PyVal.exc ExcClass.RuntimeError 0) (some [5])⟩ := by
  have h := (claim_C4_addCallbacks_exactly_one (PyVal.int 3) PyVal.none
    Option.none raiseRT retOk [] [] [] [] (PyVal.exc ExcClass.RuntimeError 0)
    [5]).1 rfl
  exact ⟨rfl, rfl, h.1, h.2 rfl⟩

/-- C5: check returns the first kind in argument order of which the wrapped
error value is an instance, and returns None when no supplied kind
matches. -/
theorem claim_C5_check_first_match (ev : PyVal) (kinds : List PyClass) :
    (SynchronousFailure.check ev kinds = Option.none →
      ∀ kk, kk ∈ kinds → PyVal.isinstance ev kk = false) ∧
    (∀ kk, SynchronousFailure.check ev kinds = some kk →
      ∃ i : Nat, kinds[i]? = some kk ∧ PyVal.isinstance ev kk = true ∧
        ∀ j : Nat, j < i → ∀ kj, kinds[j]? = some kj →
          PyVal.isinstance ev kj = false) := by
  induction kinds with
  | nil =>
      refine ⟨fun _ kk hkk => absurd hkk (List.not_mem_nil kk), fun kk h => ?_⟩
      simp [SynchronousFailure.check] at h
  | cons c rest ih =>
      constructor
      · intro h kk hkk
        cases hb : PyVal.isinstance ev c with
        | true => simp [SynchronousFailure.check, hb] at h
        | false =>
            have h2 : SynchronousFailure.check ev rest = Option.none := by
              simpa [SynchronousFailure.check, hb] using h
            rcases List.mem_cons.mp hkk with rfl | hmem
            · exact hb
            · exact ih.1 h2 kk hmem
      · intro kk h
        cases hb : PyVal.isinstance ev c with
        | true =>
            have hck : c = kk := by
              have := h
              simp [SynchronousFailure.check, hb] at this
              exact this
            subst hck
            refine ⟨0, by simp, hb, fun j hj kj hkj => absurd hj (Nat.not_lt_zero j)⟩
        | false =>
            have h2 : SynchronousFailure.check ev rest = some kk := by
              simpa [SynchronousFailure.check, hb] using h
            obtain ⟨i, hi1, hi2, hi3⟩ := ih.2 kk h2
            refine ⟨i + 1, by simpa using hi1, hi2, ?_⟩
            intro j hj kj hkj
            cases j with
            | zero =>
                have hcj : c = kj := by simpa using hkj
                subst hcj
                exact hb
            | succ j2 =>
                have hj2 : j2 < i := Nat.lt_of_succ_lt_succ hj
                have hkj2 : rest[j2]? = some kj := by simpa using hkj
                exact hi3 j2 hj2 kj hkj2

theorem claim_C5_witness :
    SynchronousFailure.check (PyVal.exc ExcClass.ZeroDivisionError 0)
      [PyClass.RuntimeError, PyClass.ArithmeticError, PyClass.ZeroDivisionError] =
      some PyClass.ArithmeticError ∧
    (∃ i : Nat, [PyClass.RuntimeError, PyClass.ArithmeticError,
        PyClass.ZeroDivisionError][i]? = some PyClass.ArithmeticError ∧
      PyVal.isinstance (PyVal.exc ExcClass.ZeroDivisionError 0)
        PyClass.ArithmeticError = true ∧
      ∀ j : Nat, j < i → ∀ kj, [PyClass.RuntimeError, PyClass.ArithmeticError,
          PyClass.ZeroDivisionError][j]? = some kj →
        PyVal.isinstance (PyVal.exc ExcClass.ZeroDivisionError 0) kj = false) :=
  ⟨rfl,
   (claim_C5_check_first_match (PyVal.exc ExcClass.ZeroDivisionError 0)
     [PyClass.RuntimeError, PyClass.ArithmeticError,
      PyClass.ZeroDivisionError]).2 PyClass.ArithmeticError rfl⟩

/-- C6: trap returns the matched kind exactly when check finds one, and on
no match it raises the failure instance itself, with value and traceback
intact, as the thrown object. -/
theorem claim_C6_trap_matches_check (ev : PyVal) (tb : Option (List Nat))
    (kinds : List PyClass) :
    (∀ kk, SynchronousFailure.check ev kinds = some kk →
      SynchronousFailure.trap ev tb kinds = TrapResult.matched kk) ∧
    (SynchronousFailure.check ev kinds = Option.none →
      SynchronousFailure.trap ev tb kinds =
        TrapResult.raisedSelf (PyVal.failure ev tb)) := by
  refine ⟨fun kk h => ?_, fun h => ?_⟩ <;> simp [SynchronousFailure.trap, h]

theorem claim_C6_witness :
    SynchronousFailure.trap (PyVal.exc ExcClass.RuntimeError 0) Option.none
      [PyClass.ZeroDivisionError, PyClass.RuntimeError] =
      TrapResult.matched PyClass.RuntimeError ∧
    SynchronousFailure.trap (PyVal.exc ExcClass.RuntimeError 0) Option.none
      [PyClass.ZeroDivisionError] =
      TrapResult.raisedSelf
        (PyVal.failure (PyVal.exc ExcClass.RuntimeError 0) Option.none) :=
  ⟨(claim_C6_trap_matches_check (PyVal.exc ExcClass.RuntimeError 0) Option.none
      [PyClass.ZeroDivisionError, PyClass.RuntimeError]).1 PyClass.RuntimeError rfl,
   (claim_C6_trap_matches_check (PyVal.exc ExcClass.RuntimeError 0) Option.none
      [PyClass.ZeroDivisionError]).2 rfl⟩

/-- C7: for a wrapper that captured an error from ambient state,
raiseException re-raises the original wrapped value, under its original
class, with the captured traceback, so the deepest frame of the resulting
trace is the last frame of the captured traceback, the original failure
site. -/
theorem claim_C7_raiseException_original_context (ev : PyVal) (t : List Nat) :
    SynchronousFailure.init PyVal.none ⟨ev, some t⟩ = PyVal.failure ev (some t) ∧
    (SynchronousFailure.raiseException ev (some t)).value = ev ∧
    (SynchronousFailure.raiseException ev (some t)).cls = PyVal.classOf ev ∧
    deepestFrame (SynchronousFailure.raiseException ev (some t)).tb =
      List.getLast? t :=
  ⟨rfl, rfl, rfl, rfl⟩

/-- C8: a wrapper constructed with a supplied (non-None) error value stores
that value directly and its traceback is absent; constructed with value None
(the default, the only way the Python signature expresses omission) it
captures value and traceback from the ambient error state. -/
theorem claim_C8_init_capture (v : PyVal) (ambient : ExcInfo) :
    (v ≠ PyVal.none →
      SynchronousFailure.init v ambient = PyVal.failure v Option.none) ∧
    SynchronousFailure.init PyVal.none ambient =
      PyVal.failure ambient.value ambient.tb := by
  refine ⟨fun h => ?_, rfl⟩
  simp [SynchronousFailure.init, h]

theorem claim_C8_witness :
    (PyVal.exc ExcClass.RuntimeError 0 ≠ PyVal.none ∧
     SynchronousFailure.init (PyVal.exc ExcClass.RuntimeError 0)
       ⟨PyVal.none, Option.none⟩ =
       PyVal.failure (PyVal.exc ExcClass.RuntimeError 0) Option.none) ∧
    SynchronousFailure.init PyVal.none
      ⟨PyVal.exc ExcClass.ZeroDivisionError 1, some [9]⟩ =
      PyVal.failure (PyVal.exc ExcClass.ZeroDivisionError 1) (some [9]) :=
  ⟨⟨by decide,
    (claim_C8_init_capture (PyVal.exc ExcClass.RuntimeError 0)
      ⟨PyVal.none, Option.none⟩).1 (by decide)⟩,
   (claim_C8_init_capture PyVal.none
     ⟨PyVal.exc ExcClass.ZeroDivisionError 1, some [9]⟩).2⟩

/-- C9: synchronize never mutates the result: the container after the call
is the container before it; on a success container it returns the value and
a repeated call returns the same value, and on a failure container it raises
while the container still holds the same wrapper. -/
theorem claim_C9_synchronize_preserves_state (d : SynchronousDeferred)
    (ev : PyVal) (tb : Option (List Nat)) :
    (SynchronousDeferred.synchronizeS d).2 = d ∧
    (PyVal.isinstance d.result PyClass.SynchronousFailure = false →
      (SynchronousDeferred.synchronizeS d).1 = SyncResult.ok d.result ∧
      (SynchronousDeferred.synchronizeS
        (SynchronousDeferred.synchronizeS d).2).1 = SyncResult.ok d.result) ∧
    (d.result = PyVal.failure ev tb →
      (SynchronousDeferred.synchronizeS d).1 =
        SyncResult.raised (SynchronousFailure.raiseException ev tb) ∧
      (SynchronousDeferred.synchronizeS d).2.result = PyVal.failure ev tb) := by
  obtain ⟨r⟩ := d
  refine ⟨rfl, fun hf => ?_, fun hr => ?_⟩
  · have h := synchronize_ok_of_not_failure r hf
    exact ⟨h, h⟩
  · have hr2 : r = PyVal.failure ev tb := hr
    subst hr2
    exact ⟨rfl, rfl⟩

theorem claim_C9_witness :
    (PyVal.isinstance (PyVal.int 7) PyClass.SynchronousFailure = false ∧
     (SynchronousDeferred.synchronizeS ⟨PyVal.int 7⟩).1 =
       SyncResult.ok (PyVal.int 7) ∧
     (SynchronousDeferred.synchronizeS
       (SynchronousDeferred.synchronizeS ⟨PyVal.int 7⟩).2).1 =
       SyncResult.ok (PyVal.int 7)) ∧
    ((SynchronousDeferred.synchronizeS
        ⟨PyVal.failure (PyVal.exc ExcClass.RuntimeError 0) Option.none⟩).1 =
      SyncResult.raised (SynchronousFailure.raiseException
        (PyVal.exc ExcClass.RuntimeError 0) Option.none) ∧
     (SynchronousDeferred.synchronizeS
        ⟨PyVal.failure (PyVal.exc ExcClass.RuntimeError 0) Option.none⟩).2.result =
      PyVal.failure (PyVal.exc ExcClass.RuntimeError 0) Option.none) := by
  constructor
  · exact ⟨rfl,
      (claim_C9_synchronize_preserves_state ⟨PyVal.int 7⟩ PyVal.none
        Option.none).2.1 rfl⟩
  · exact (claim_C9_synchronize_preserves_state
      ⟨PyVal.failure (PyVal.exc ExcClass.RuntimeError 0) Option.none⟩
      (PyVal.exc ExcClass.RuntimeError 0) Option.none).2.2 rfl

/-- C10 counterexample: a handler raises a SynchronousFailure wrapping an
instance of the base Exception class; the capture produces a wrapper whose
value is that failure, and check on the new wrapper against the kind wrapped
inside the inner failure (Exception) DOES match, because SynchronousFailure
itself subclasses Exception, contradicting the claim that it never
matches. -/
theorem claim_C10_counterexample :
    SynchronousDeferred.addBoth ⟨PyVal.int 1⟩ raiseNestedExc [] [] =
      ⟨PyVal.failure
        (PyVal.failure (PyVal.exc ExcClass.Exception 0) Option.none)
        (some [3])⟩ ∧
    PyVal.isinstance (PyVal.exc ExcClass.Exception 0) PyClass.Exception = true ∧
    SynchronousFailure.check
      (PyVal.failure (PyVal.exc ExcClass.Exception 0) Option.none)
      [PyClass.Exception] = some PyClass.Exception :=
  ⟨rfl, rfl, rfl⟩

/-- C10 (amended): when a handler raises a SynchronousFailure f, the capture
primitive produces a new wrapper whose wrapped value is f itself, and check
on the new wrapper against a kind the inner error is an instance of does not
match whenever that kind is not an ancestor class of SynchronousFailure
itself; nesting is not automatically unwrapped. -/
theorem claim_C10_nested_not_unwrapped (v fv : PyVal) (ftb : Option (List Nat))
    (rtb : List Nat) (h : Handler) (a : List PyVal)
    (k : List (String × PyVal)) (kk : PyClass)
    (hr : h v a k = HResult.raised (PyVal.failure fv ftb) rtb)
    (_hkk : PyVal.isinstance fv kk = true)
    (hna : PyClass.listHas kk (PyClass.ancestors PyClass.SynchronousFailure) =
      false) :
    SynchronousDeferred.addBoth ⟨v⟩ h a k =
      ⟨PyVal.failure (PyVal.failure fv ftb) (some rtb)⟩ ∧
    SynchronousFailure.check (PyVal.failure fv ftb) [kk] = Option.none := by
  refine ⟨callCallback_raised ⟨v⟩ h a k _ rtb hr, ?_⟩
  simp [SynchronousFailure.check, PyVal.isinstance, PyVal.classOf, hna]

theorem claim_C10_witness :
    raiseNestedRT (PyVal.int 1) [] [] =
      HResult.raised
        (PyVal.failure (PyVal.exc ExcClass.RuntimeError 0) Option.none) [3] ∧
    PyVal.isinstance (PyVal.exc ExcClass.RuntimeError 0)
      PyClass.RuntimeError = true ∧
    PyClass.listHas PyClass.RuntimeError
      (PyClass.ancestors PyClass.SynchronousFailure) = false ∧
    (SynchronousDeferred.addBoth ⟨PyVal.int 1⟩ raiseNestedRT [] [] =
      ⟨PyVal.failure
        (PyVal.failure (PyVal.exc ExcClass.RuntimeError 0) Option.none)
        (some [3])⟩ ∧
     SynchronousFailure.check
       (PyVal.failure (PyVal.exc ExcClass.RuntimeError 0) Option.none)
       [PyClass.RuntimeError] = Option.none) :=
  ⟨rfl, rfl, rfl,
   claim_C10_nested_not_unwrapped (PyVal.int 1)
     (PyVal.exc ExcClass.RuntimeError 0) Option.none [3] raiseNestedRT [] []
     PyClass.RuntimeError rfl rfl rfl⟩
